/-
  Verification of the top-fimes movie-search front-end.

  Shallow embedding of the cache tier (scripts/api.js: getFromCache,
  setCache, clearCache), the request layer (scripts/api.js: searchMovies,
  getMovieDetails, validateAPIResponse), the utilities
  (scripts/utils.js: isValidAPIKey, getErrorMessage) and the orchestration
  layer (scripts/main.js: performSearch, handlePageChange).

  JavaScript `Error` objects are modelled by their `name` and `message`
  fields; `localStorage` is modelled as an association list from string
  keys to stored values; the in-memory `Map` is an association list as
  well.  Time is a natural number of milliseconds.
-/
import Mathlib

namespace TopFimes

/-! ### Configuration constants (scripts/config.js) -/

def OMDB_API_KEY : String := "YOUR_API_KEY_HERE"

def DEBOUNCE_DELAY : Nat := 300

def SEARCH_TIMEOUT : Nat := 8000

def CACHE_DURATION : Nat := 24 * 60 * 60 * 1000

def ITEMS_PER_PAGE : Nat := 10

/-! ### JavaScript error values

A thrown JS `Error` is observable through its `name` and `message`
fields (`new Error(msg)` has name `"Error"`; a fetch abort rejects with a
`DOMException` whose name is `"AbortError"`). -/

structure JSError where
  name : String
  message : String
deriving DecidableEq, Repr

/-! ### Association lists (the in-memory `Map` and `localStorage`) -/

def alGet {α : Type} (l : List (String × α)) (k : String) : Option α :=
  match l with
  | [] => none
  | (k', v) :: t => if k' = k then some v else alGet t k

def alSet {α : Type} (l : List (String × α)) (k : String) (v : α) :
    List (String × α) :=
  match l with
  | [] => [(k, v)]
  | (k', v') :: t => if k' = k then (k, v) :: t else (k', v') :: alSet t k v

def alRemove {α : Type} (l : List (String × α)) (k : String) :
    List (String × α) :=
  match l with
  | [] => []
  | (k', v') :: t => if k' = k then alRemove t k else (k', v') :: alRemove t k

/-! ### String prefix test (`String.prototype.startsWith`) -/

def listStarts {α : Type} [DecidableEq α] : List α → List α → Bool
  | [], _ => true
  | _ :: _, [] => false
  | p :: ps, x :: xs => if p = x then listStarts ps xs else false

def strStarts (s pre : String) : Bool := listStarts pre.data s.data

/-! ### JS string primitives

`String.prototype.trim` and `String.prototype.toLowerCase`, implemented
over the character list (ASCII whitespace and ASCII case, which covers
every string this program manipulates). -/

def jsWhitespace (c : Char) : Bool :=
  c = ' ' || c = '\t' || c = '\n' || c = '\r'

def jsTrim (s : String) : String :=
  ⟨((s.data.dropWhile jsWhitespace).reverse.dropWhile jsWhitespace).reverse⟩

def jsLowerChar (c : Char) : Char :=
  if 'A' ≤ c && c ≤ 'Z' then Char.ofNat (c.toNat + 32) else c

def jsToLower (s : String) : String := ⟨s.data.map jsLowerChar⟩

/-! ### The OMDb response data model

The remote API returns a JSON object; the fields the program inspects are
`Response`, `Error`, `Search`, `totalResults` and `imdbID`.  A field that
is absent from the JSON object is `none`. -/

structure Movie where
  imdbID : String
  Title : String
deriving DecidableEq, Repr

structure APIData where
  Response : Option String
  Error : Option String
  Search : Option (List Movie)
  totalResults : Option String
  imdbID : Option String
deriving DecidableEq, Repr

/-- JS truthiness of an optional string field (`undefined`, `null` and
`""` are falsy). -/
def truthyStr : Option String → Bool
  | none => false
  | some s => s ≠ ""

/-! ### Cache state (scripts/api.js)

`memory` is the module-level `memoryCache` Map; `storage` is
`localStorage` (which other code may also use, hence arbitrary string
keys and possibly non-cache values); `quotaExceeded` says whether a
`localStorage.setItem` call currently throws (quota exhausted /
storage unavailable). -/

inductive StoredVal where
  /-- A JSON-encoded cache entry `{ data, timestamp }`. -/
  | entry (data : APIData) (timestamp : Nat)
  /-- Any other string stored by unrelated code (fails `JSON.parse`
  or lacks the expected shape). -/
  | other (raw : String)
deriving DecidableEq, Repr

structure CacheState where
  memory : List (String × APIData)
  storage : List (String × StoredVal)
  quotaExceeded : Bool
deriving DecidableEq, Repr

/-- `getFromCache(key)` — returns the cached value (or `null`) together
with the updated cache state (promotion into memory, or deletion of an
expired persistent entry). -/
def getFromCache (st : CacheState) (now : Nat) (key : String) :
    Option APIData × CacheState :=
  match alGet st.memory key with
  | some v => (some v, st)
  | none =>
    match alGet st.storage ("omdb_" ++ key) with
    | some (StoredVal.entry data timestamp) =>
      if now - timestamp > 24 * 60 * 60 * 1000 then
        (none, { st with storage := alRemove st.storage ("omdb_" ++ key) })
      else
        (some data, { st with memory := alSet st.memory key data })
    | some (StoredVal.other _) => (none, st)
    | none => (none, st)

/-- `localStorage.setItem` — throws a `QuotaExceededError` when the
storage quota is exhausted. -/
def localStorageSetItem (st : CacheState) (k : String) (v : StoredVal) :
    Except JSError CacheState :=
  if st.quotaExceeded then
    Except.error ⟨"QuotaExceededError", "exceeded the quota"⟩
  else
    Except.ok { st with storage := alSet st.storage k v }

/-- `setCache(key, data)` — writes to the in-memory Map, then attempts the
persistent write inside `try/catch`; a `setItem` failure is logged and
swallowed. -/
def setCache (st : CacheState) (now : Nat) (key : String) (data : APIData) :
    CacheState :=
  let st1 : CacheState := { st with memory := alSet st.memory key data }
  match localStorageSetItem st1 ("omdb_" ++ key) (StoredVal.entry data now) with
  | Except.ok st2 => st2
  | Except.error _ => st1

/-- `clearCache()` — empties the in-memory Map and removes every
`localStorage` key starting with `"omdb_"`. -/
def clearCache (st : CacheState) : CacheState :=
  { st with
    memory := []
    storage := st.storage.filter (fun e => !(strStarts e.1 "omdb_")) }

/-! ### Utilities (scripts/utils.js) -/

/-- `isValidAPIKey(apiKey)`: `apiKey && apiKey.length > 5 && apiKey !==
'YOUR_API_KEY_HERE'` (an empty string is falsy). -/
def isValidAPIKey (apiKey : String) : Bool :=
  !(apiKey == "") && decide (apiKey.length > 5) &&
    !(apiKey == "YOUR_API_KEY_HERE")

/-- A substring match at any position of the character list. -/
def listHasSub {α : Type} [DecidableEq α] (pat : List α) : List α → Bool
  | [] => listStarts pat []
  | x :: xs => listStarts pat (x :: xs) || listHasSub pat xs

/-- `String.prototype.includes`. -/
def strIncludes (s pat : String) : Bool := listHasSub pat.data s.data

/-- `getErrorMessage(error)` from scripts/utils.js. -/
def getErrorMessage (e : JSError) : String :=
  if e.name = "AbortError" then "Busca cancelada pelo usuário."
  else if strIncludes e.message "Failed to fetch" then
    "Erro de conexão. Verifique sua internet e tente novamente."
  else if e.message ≠ "" then e.message
  else "Erro desconhecido. Tente novamente."

/-! ### Response validation (scripts/api.js) -/

inductive ReqType where
  | search
  | detail
deriving DecidableEq, Repr

/-- `validateAPIResponse(data, type)` — throws on a remote-reported
failure (`Response === 'False'`), on a search response without a `Search`
collection, and on a detail response without an `imdbID`.  Note that an
*empty array* `Search: []` is truthy in JS and passes validation. -/
def validateAPIResponse (data : APIData) (rt : ReqType) :
    Except JSError Unit :=
  if data.Response = some "False" then
    Except.error ⟨"Error",
      if truthyStr data.Error then data.Error.getD "" else "Erro na API OMDb"⟩
  else
    match rt with
    | ReqType.search =>
      if data.Search = none then
        Except.error ⟨"Error", "Nenhum resultado encontrado."⟩
      else Except.ok ()
    | ReqType.detail =>
      if truthyStr data.imdbID then Except.ok ()
      else Except.error ⟨"Error", "Filme não encontrado."⟩

/-! ### The network environment

`searchMovies`/`getMovieDetails` interact with the outside world through
`fetch`, a timer and an optional caller-supplied `AbortSignal`.  The
environment fixes what the server would answer, whether the caller's
token aborts the request while it is in flight, and whether the
8-second timer elapses before the response arrives. -/

inductive ServerOutcome where
  /-- `fetch` rejects (e.g. a `TypeError: Failed to fetch`). -/
  | networkFailure (name msg : String)
  /-- `fetch` resolves with a response: `ok` flag, HTTP status and the
  parsed JSON body. -/
  | httpResponse (ok : Bool) (status : Nat) (body : APIData)
deriving DecidableEq, Repr

structure NetEnv where
  apiKey : String
  now : Nat
  server : ServerOutcome
  /-- The caller-supplied token (when one is supplied) aborts the
  in-flight call. -/
  callerAborts : Bool
  /-- The `SEARCH_TIMEOUT` timer fires before the response settles. -/
  timerFires : Bool
deriving DecidableEq, Repr

/-- The result `fetch` settles with.  A self-created controller
(`signalProvided = false`) is aborted by the timer; a caller-supplied
signal aborts when the caller aborts it — the timer callback runs
`if (controller) controller.abort()` and `controller` is `null` when a
signal was supplied, so the timer then aborts nothing. -/
def fetchResult (signalProvided : Bool) (env : NetEnv) :
    Except JSError (Bool × Nat × APIData) :=
  if signalProvided && env.callerAborts then
    Except.error ⟨"AbortError", "The user aborted a request."⟩
  else if !signalProvided && env.timerFires then
    Except.error ⟨"AbortError", "The user aborted a request."⟩
  else
    match env.server with
    | ServerOutcome.networkFailure name msg => Except.error ⟨name, msg⟩
    | ServerOutcome.httpResponse ok status body => Except.ok (ok, status, body)

/-- Observable result of one `searchMovies`/`getMovieDetails` call:
the settled promise, the cache state afterwards, how many network
requests went out, and the delay of the `setTimeout` timer when one was
armed. -/
structure CallResult where
  outcome : Except JSError APIData
  cache : CacheState
  networkCalls : Nat
  timerSetMs : Option Nat
deriving Repr

def apiKeyErrorMessage : String :=
  "API key não configurada. Configure em scripts/config.js"

def searchCacheKey (searchTerm : String) (page : Nat) : String :=
  "search_" ++ jsToLower searchTerm ++ "_" ++ toString page

/-- `searchMovies(searchTerm, page, signal)` from scripts/api.js. -/
def searchMovies (env : NetEnv) (st : CacheState) (searchTerm : String)
    (page : Nat) (signalProvided : Bool) : CallResult :=
  if !(isValidAPIKey env.apiKey) then
    ⟨Except.error ⟨"Error", apiKeyErrorMessage⟩, st, 0, none⟩
  else if (jsTrim searchTerm).length = 0 then
    ⟨Except.error ⟨"Error", "Por favor, insira um termo de busca."⟩,
      st, 0, none⟩
  else
    let cacheKey := searchCacheKey searchTerm page
    match getFromCache st env.now cacheKey with
    | (some cached, st1) => ⟨Except.ok cached, st1, 0, none⟩
    | (none, st1) =>
      let tryBody : Except JSError APIData × CacheState :=
        match fetchResult signalProvided env with
        | Except.error e => (Except.error e, st1)
        | Except.ok (ok, status, body) =>
          if !ok then
            (Except.error ⟨"Error", "HTTP " ++ toString status⟩, st1)
          else
            match validateAPIResponse body ReqType.search with
            | Except.error e => (Except.error e, st1)
            | Except.ok _ => (Except.ok body, setCache st1 env.now cacheKey body)
      let wrapped : Except JSError APIData :=
        match tryBody.1 with
        | Except.error e =>
          if e.name = "AbortError" then
            Except.error ⟨"Error", "Busca cancelada."⟩
          else Except.error e
        | Except.ok d => Except.ok d
      ⟨wrapped, tryBody.2, 1, some SEARCH_TIMEOUT⟩

def detailCacheKey (imdbID : String) : String := "detail_" ++ imdbID

/-- `getMovieDetails(imdbID, signal)` from scripts/api.js. -/
def getMovieDetails (env : NetEnv) (st : CacheState) (imdbID : String)
    (signalProvided : Bool) : CallResult :=
  if !(isValidAPIKey env.apiKey) then
    ⟨Except.error ⟨"Error", apiKeyErrorMessage⟩, st, 0, none⟩
  else if imdbID = "" || (jsTrim imdbID).length = 0 then
    ⟨Except.error ⟨"Error", "ID IMDb inválido."⟩, st, 0, none⟩
  else
    let cacheKey := detailCacheKey imdbID
    match getFromCache st env.now cacheKey with
    | (some cached, st1) => ⟨Except.ok cached, st1, 0, none⟩
    | (none, st1) =>
      let tryBody : Except JSError APIData × CacheState :=
        match fetchResult signalProvided env with
        | Except.error e => (Except.error e, st1)
        | Except.ok (ok, status, body) =>
          if !ok then
            (Except.error ⟨"Error", "HTTP " ++ toString status⟩, st1)
          else
            match validateAPIResponse body ReqType.detail with
            | Except.error e => (Except.error e, st1)
            | Except.ok _ => (Except.ok body, setCache st1 env.now cacheKey body)
      let wrapped : Except JSError APIData :=
        match tryBody.1 with
        | Except.error e =>
          if e.name = "AbortError" then
            Except.error ⟨"Error", "Requisição cancelada."⟩
          else Except.error e
        | Except.ok d => Except.ok d
      ⟨wrapped, tryBody.2, 1, some SEARCH_TIMEOUT⟩

/-! ### Orchestration (scripts/main.js) -/

/-- `parseInt(s) || 0`: the leading digits of the trimmed string, `0`
when there are none (`NaN || 0` is `0`). -/
def parseIntOrZero (s : Option String) : Nat :=
  match s with
  | none => 0
  | some str =>
    let digits := (jsTrim str).data.takeWhile Char.isDigit
    digits.foldl (fun a c => a * 10 + (c.toNat - '0'.toNat)) 0

/-- The part of `appState` the claims are about. -/
structure AppState where
  currentSearchTerm : String
  currentPage : Nat
  totalResults : Nat
  currentMovies : List Movie
deriving DecidableEq, Repr

/-- What `performSearch` leaves on the screen. -/
inductive RenderOutcome where
  /-- Early return: `results-count` text set, no call to `searchMovies`. -/
  | promptMsg (msg : String)
  /-- `renderErrorState` was called with this message. -/
  | showError (msg : String)
  /-- The movie grid was rendered, with pagination. -/
  | showResults (movies : List Movie) (hasNextPage : Bool)
  /-- The `AbortError`-named branch of the catch: nothing rendered. -/
  | ignored
deriving Repr

/-- Observable effect of one `performSearch` run. -/
structure SearchStep where
  render : RenderOutcome
  app : AppState
  cache : CacheState
  /-- Number of outbound network requests the run caused. -/
  networkCalls : Nat
  /-- The page argument `searchMovies` was invoked with, when it was
  invoked. -/
  searchedPage : Option Nat
deriving Repr

/-- `performSearch()` from scripts/main.js.  `inputValue` is the
current content of the search input; the call always supplies the fresh
`AbortController`'s signal to `searchMovies`. -/
def performSearch (env : NetEnv) (inputValue : String) (app : AppState)
    (cache : CacheState) : SearchStep :=
  let searchTerm := jsTrim inputValue
  if searchTerm = "" then
    ⟨RenderOutcome.promptMsg "Digite um termo para buscar.", app, cache,
      0, none⟩
  else
    let app1 : AppState :=
      { app with currentSearchTerm := searchTerm, currentPage := 1 }
    let r := searchMovies env cache searchTerm app1.currentPage true
    match r.outcome with
    | Except.ok data =>
      let noResults : Bool :=
        match data.Search with
        | none => true
        | some l => l.length = 0
      if noResults then
        ⟨RenderOutcome.showError
            ("Nenhum resultado para \"" ++ searchTerm ++ "\""),
          app1, r.cache, r.networkCalls, some app1.currentPage⟩
      else
        let app2 : AppState :=
          { app1 with
            currentMovies := data.Search.getD []
            totalResults := parseIntOrZero data.totalResults }
        let hasNextPage := app2.currentPage * 10 < app2.totalResults
        ⟨RenderOutcome.showResults app2.currentMovies hasNextPage,
          app2, r.cache, r.networkCalls, some app1.currentPage⟩
    | Except.error e =>
      if e.name ≠ "AbortError" then
        ⟨RenderOutcome.showError (getErrorMessage e), app1, r.cache,
          r.networkCalls, some app1.currentPage⟩
      else
        ⟨RenderOutcome.ignored, app1, r.cache, r.networkCalls,
          some app1.currentPage⟩

/-- `handlePageChange(page)` from scripts/main.js: stores the requested
page in `appState.currentPage` and calls `performSearch()`. -/
def handlePageChange (env : NetEnv) (page : Nat) (inputValue : String)
    (app : AppState) (cache : CacheState) : SearchStep :=
  performSearch env inputValue { app with currentPage := page } cache

/-! ### Concrete fixtures used by witnesses and counterexamples -/

def movieBatman : Movie := ⟨"tt0372784", "Batman Begins"⟩

/-- A well-formed successful search response. -/
def dataBatman : APIData :=
  { Response := some "True", Error := none, Search := some [movieBatman],
    totalResults := some "564", imdbID := none }

/-- A well-formed successful detail response. -/
def dataDetail : APIData :=
  { Response := some "True", Error := none, Search := none,
    totalResults := none, imdbID := some "tt0372784" }

def emptyCache : CacheState := ⟨[], [], false⟩

def appInit : AppState := ⟨"", 1, 0, []⟩

/-- A baseline environment: valid 6-character key, a healthy server. -/
def envBase : NetEnv :=
  { apiKey := "key123", now := 0,
    server := ServerOutcome.httpResponse true 200 dataBatman,
    callerAborts := false, timerFires := false }

/-- The caller's cancellation token aborts the in-flight call. -/
def envAborted : NetEnv := { envBase with callerAborts := true }

/-- The 8-second timer fires before the (otherwise successful) response. -/
def envTimerFires : NetEnv := { envBase with timerFires := true }

/-- Timer fires, and the server would answer a healthy detail response. -/
def envDetailTimerFires : NetEnv :=
  { envTimerFires with
    server := ServerOutcome.httpResponse true 200 dataDetail }

/-- The server answers with HTTP 500, one millisecond past the TTL. -/
def envHttp500 : NetEnv :=
  { envBase with
    now := CACHE_DURATION + 1
    server := ServerOutcome.httpResponse false 500 dataBatman }

/-- A cache whose only content is a persistent entry for
`search_batman_1`, stored at time 0. -/
def cacheStoredBatman : CacheState :=
  ⟨[], [("omdb_search_batman_1", StoredVal.entry dataBatman 0)], false⟩

/-- Same persistent entry, but the in-memory Map also still holds the
key (the page session outlived the TTL). -/
def cacheMemAndStored : CacheState :=
  ⟨[("search_batman_1", dataBatman)],
    [("omdb_search_batman_1", StoredVal.entry dataBatman 0)], false⟩

/-- Application state right after a search that found 5 results. -/
def appFive : AppState := ⟨"batman", 1, 5, [movieBatman]⟩

/-- Application state right after a search that found 30 results. -/
def appThirty : AppState := ⟨"batman", 1, 30, [movieBatman]⟩

/-! ### Association-list and string lemmas -/

theorem alGet_alSet_self {α : Type} (l : List (String × α)) (k : String)
    (v : α) : alGet (alSet l k v) k = some v := by
  induction l with
  | nil => simp [alSet, alGet]
  | cons h t ih =>
    obtain ⟨k', v'⟩ := h
    by_cases hk : k' = k
    · simp [alSet, hk, alGet]
    · simp [alSet, hk, alGet, ih]

theorem alGet_alSet_other {α : Type} (l : List (String × α)) (k k2 : String)
    (v : α) (h : k2 ≠ k) : alGet (alSet l k v) k2 = alGet l k2 := by
  induction l with
  | nil => simp [alSet, alGet, Ne.symm h]
  | cons hd t ih =>
    obtain ⟨k', v'⟩ := hd
    by_cases hk : k' = k
    · subst hk
      simp [alSet, alGet, Ne.symm h]
    · simp [alSet, hk, alGet, ih]

theorem alGet_alRemove_self {α : Type} (l : List (String × α)) (k : String) :
    alGet (alRemove l k) k = none := by
  induction l with
  | nil => simp [alRemove, alGet]
  | cons hd t ih =>
    obtain ⟨k', v'⟩ := hd
    by_cases hk : k' = k
    · simp [alRemove, hk, ih]
    · simp [alRemove, hk, alGet, ih]

theorem alGet_alRemove_other {α : Type} (l : List (String × α))
    (k k2 : String) (h : k2 ≠ k) :
    alGet (alRemove l k) k2 = alGet l k2 := by
  induction l with
  | nil => simp [alRemove]
  | cons hd t ih =>
    obtain ⟨k', v'⟩ := hd
    by_cases hk : k' = k
    · subst hk
      simp [alRemove, alGet, Ne.symm h, ih]
    · simp [alRemove, hk, alGet, ih]

theorem alGet_filterKey {α : Type} (l : List (String × α))
    (q : String → Bool) (k : String) :
    alGet (l.filter (fun e => q e.1)) k =
      if q k then alGet l k else none := by
  induction l with
  | nil => simp [alGet]
  | cons hd t ih =>
    obtain ⟨k', v'⟩ := hd
    by_cases hq : q k' = true
    · by_cases hk : k' = k
      · subst hk
        simp [List.filter, hq, alGet]
      · simp [List.filter, hq, alGet, hk, ih]
    · by_cases hk : k' = k
      · subst hk
        simp [List.filter, hq, ih, alGet]
      · simp [List.filter, hq, alGet, hk, ih]

theorem listStarts_append {α : Type} [DecidableEq α] (p rest : List α) :
    listStarts p (p ++ rest) = true := by
  induction p with
  | nil => simp [listStarts]
  | cons h t ih => simp [listStarts, ih]

theorem strStarts_append (pre k : String) :
    strStarts (pre ++ k) pre = true := by
  have hdata : (pre ++ k).data = pre.data ++ k.data := rfl
  simp [strStarts, hdata, listStarts_append]

/-! ### Cache-tier lemmas -/

/-- A key held by the in-memory Map is returned as-is, state untouched. -/
theorem getFromCache_memHit (st : CacheState) (now : Nat) (k : String)
    (d : APIData) (h : alGet st.memory k = some d) :
    getFromCache st now k = (some d, st) := by
  unfold getFromCache
  simp [h]

/-- A fresh persistent entry is promoted into memory and returned. -/
theorem getFromCache_storeHit (st : CacheState) (now ts : Nat) (k : String)
    (d : APIData) (hm : alGet st.memory k = none)
    (hs : alGet st.storage ("omdb_" ++ k) = some (StoredVal.entry d ts))
    (hts : now - ts ≤ CACHE_DURATION) :
    getFromCache st now k
      = (some d, { st with memory := alSet st.memory k d }) := by
  unfold getFromCache
  have : ¬ (now - ts > 24 * 60 * 60 * 1000) := by
    simp only [CACHE_DURATION] at hts
    omega
  simp [hm, hs, this]

/-- When `getFromCache` misses, the memory tier is untouched and the
persistent tier is either untouched or lost exactly the (expired) entry
under the queried key. -/
theorem getFromCache_none_state (st : CacheState) (now : Nat) (k : String)
    (h : (getFromCache st now k).1 = none) :
    (getFromCache st now k).2.memory = st.memory ∧
    ((getFromCache st now k).2.storage = st.storage ∨
      (getFromCache st now k).2.storage
        = alRemove st.storage ("omdb_" ++ k)) := by
  unfold getFromCache at h ⊢
  cases hm : alGet st.memory k with
  | some d => simp [hm] at h
  | none =>
    cases hs : alGet st.storage ("omdb_" ++ k) with
    | none => simp [hm, hs]
    | some sv =>
      cases sv with
      | other raw => simp [hm, hs]
      | entry d ts =>
        by_cases hexp : now - ts > 24 * 60 * 60 * 1000
        · simp [hm, hs, hexp]
        · simp [hm, hs, hexp] at h

/-- Rewriting helper: a missing result determines the pair shape. -/
theorem getFromCache_none_eq (st : CacheState) (now : Nat) (k : String)
    (h : (getFromCache st now k).1 = none) :
    getFromCache st now k = (none, (getFromCache st now k).2) := by
  rw [← h]

/-- A key held by neither tier misses and leaves the state untouched. -/
theorem getFromCache_miss (st : CacheState) (now : Nat) (k : String)
    (hm : alGet st.memory k = none)
    (hs : alGet st.storage ("omdb_" ++ k) = none) :
    getFromCache st now k = (none, st) := by
  unfold getFromCache
  simp [hm, hs]

/-- Lookup in the list `clear` leaves behind. -/
theorem alGet_clearFilter {α : Type} (l : List (String × α)) (k : String) :
    alGet (l.filter (fun e => !strStarts e.1 "omdb_")) k
      = if strStarts k "omdb_" then none else alGet l k := by
  have h := alGet_filterKey l (fun s => !strStarts s "omdb_") k
  by_cases hk : strStarts k "omdb_"
  · simpa [hk] using h
  · simpa [hk] using h

/-! ### Claim theorems -/

/-- C5: for every cache key `k` and payload `v`, `set(k, v)` followed
immediately by `get(k)` returns a value equal to `v` — in any prior
cache state, at any pair of times, and whether or not the persistent
write succeeded. -/
theorem set_then_get_roundtrip (st : CacheState) (now now2 : Nat)
    (k : String) (v : APIData) :
    (getFromCache (setCache st now k v) now2 k).1 = some v := by
  have hmem : alGet (setCache st now k v).memory k = some v := by
    unfold setCache localStorageSetItem
    by_cases hq : st.quotaExceeded
    · simp [hq, alGet_alSet_self]
    · simp [hq, alGet_alSet_self]
  rw [getFromCache_memHit _ _ _ _ hmem]

/-- C8: a failing persistent write inside `set` is absorbed: the
in-memory write still takes effect, no other in-memory entry is
disturbed, the persistent tier is simply left as it was, and `setCache`
returns a state (it is total — the `setItem` error is caught, never
rethrown). -/
theorem setCache_absorbs_persistent_failure (st : CacheState) (now : Nat)
    (k : String) (v : APIData) :
    alGet (setCache st now k v).memory k = some v ∧
    (∀ k2, k2 ≠ k →
      alGet (setCache st now k v).memory k2 = alGet st.memory k2) ∧
    (st.quotaExceeded = true → (setCache st now k v).storage = st.storage) ∧
    (st.quotaExceeded = true →
      localStorageSetItem { st with memory := alSet st.memory k v }
          ("omdb_" ++ k) (StoredVal.entry v now)
        = Except.error ⟨"QuotaExceededError", "exceeded the quota"⟩) := by
  refine ⟨?_, ?_, ?_, ?_⟩
  · unfold setCache localStorageSetItem
    by_cases hq : st.quotaExceeded
    · simp [hq, alGet_alSet_self]
    · simp [hq, alGet_alSet_self]
  · intro k2 hk2
    unfold setCache localStorageSetItem
    by_cases hq : st.quotaExceeded
    · simp [hq, alGet_alSet_other _ _ _ _ hk2]
    · simp [hq, alGet_alSet_other _ _ _ _ hk2]
  · intro hq
    unfold setCache localStorageSetItem
    simp [hq]
  · intro hq
    unfold localStorageSetItem
    simp [hq]

/-- Witness for C8 at a concrete quota-exhausted state. -/
theorem setCache_absorbs_persistent_failure_witness :
    alGet (setCache ⟨[], [], true⟩ 7 "search_batman_1" dataBatman).memory
        "search_batman_1" = some dataBatman ∧
    (setCache ⟨[], [], true⟩ 7 "search_batman_1" dataBatman).storage
        = [] := by
  constructor
  · exact (setCache_absorbs_persistent_failure ⟨[], [], true⟩ 7
      "search_batman_1" dataBatman).1
  · exact (setCache_absorbs_persistent_failure ⟨[], [], true⟩ 7
      "search_batman_1" dataBatman).2.2.1 rfl

/-- C6: after `clear()`, every cache key is absent from the in-memory
tier and from the persistent tier (so `get` misses), while persisted
entries whose key does not carry the `omdb_` namespace prefix are left
exactly as they were. -/
theorem clearCache_empties_namespace (st : CacheState) (now : Nat)
    (k other : String) :
    alGet (clearCache st).memory k = none ∧
    alGet (clearCache st).storage ("omdb_" ++ k) = none ∧
    (getFromCache (clearCache st) now k).1 = none ∧
    (strStarts other "omdb_" = false →
      alGet (clearCache st).storage other = alGet st.storage other) := by
  have hmem : alGet (clearCache st).memory k = none := rfl
  have hstore : ∀ k2, alGet (clearCache st).storage k2
      = if strStarts k2 "omdb_" then none else alGet st.storage k2 :=
    fun k2 => alGet_clearFilter st.storage k2
  have homdb : alGet (clearCache st).storage ("omdb_" ++ k) = none := by
    rw [hstore]
    simp [strStarts_append]
  refine ⟨hmem, homdb, ?_, ?_⟩
  · rw [getFromCache_miss _ now _ hmem homdb]
  · intro hother
    rw [hstore]
    simp [hother]

/-- Witness for C6: a set key misses after `clear`, an unrelated
persisted entry survives. -/
theorem clearCache_empties_namespace_witness :
    (getFromCache
        (clearCache (setCache ⟨[], [("theme", StoredVal.other "dark")], false⟩
          0 "search_batman_1" dataBatman))
        5 "search_batman_1").1 = none ∧
    alGet (clearCache (setCache ⟨[], [("theme", StoredVal.other "dark")], false⟩
          0 "search_batman_1" dataBatman)).storage "theme"
      = some (StoredVal.other "dark") := by
  constructor
  · exact (clearCache_empties_namespace _ 5 "search_batman_1" "theme").2.2.1
  · have h := (clearCache_empties_namespace
      (setCache ⟨[], [("theme", StoredVal.other "dark")], false⟩
        0 "search_batman_1" dataBatman) 5 "search_batman_1" "theme").2.2.2
        (by rfl)
    rw [h]
    rfl

/-- C2 counterexample: a key that is still in the in-memory Map is
returned even though its persistent entry is expired
(`now - storedAt = TTL + 1`), and the expired persistent entry is not
deleted — `get(k)` is not absent. -/
theorem memory_hit_ignores_expiry :
    (getFromCache cacheMemAndStored (CACHE_DURATION + 1)
        "search_batman_1").1 = some dataBatman ∧
    alGet (getFromCache cacheMemAndStored (CACHE_DURATION + 1)
        "search_batman_1").2.storage "omdb_search_batman_1"
      = some (StoredVal.entry dataBatman 0) := by
  exact ⟨rfl, rfl⟩

/-- C2 (amended): for a key *absent from the in-memory Map*, an expired
persistent entry (`now - storedAt > TTL`) makes `get(k)` return absent
and deletes the entry, so a subsequent `get` finds neither tier holding
it; a persistent entry within the TTL is promoted into the in-memory
Map and returned. -/
theorem getFromCache_ttl_behavior (st : CacheState) (now ts : Nat)
    (k : String) (d : APIData)
    (hmem : alGet st.memory k = none)
    (hstore : alGet st.storage ("omdb_" ++ k) = some (StoredVal.entry d ts)) :
    (now - ts > CACHE_DURATION →
      (getFromCache st now k).1 = none ∧
      alGet (getFromCache st now k).2.storage ("omdb_" ++ k) = none ∧
      (getFromCache (getFromCache st now k).2 now k).1 = none) ∧
    (now - ts ≤ CACHE_DURATION →
      (getFromCache st now k).1 = some d ∧
      alGet (getFromCache st now k).2.memory k = some d) := by
  constructor
  · intro hexp
    have hexp' : now - ts > 24 * 60 * 60 * 1000 := by
      simpa [CACHE_DURATION] using hexp
    have hpair : getFromCache st now k
        = (none, { st with storage := alRemove st.storage ("omdb_" ++ k) }) := by
      unfold getFromCache
      simp [hmem, hstore, hexp']
    refine ⟨by rw [hpair], ?_, ?_⟩
    · rw [hpair]
      exact alGet_alRemove_self _ _
    · rw [hpair]
      unfold getFromCache
      simp [hmem, alGet_alRemove_self]
  · intro hfresh
    rw [getFromCache_storeHit st now ts k d hmem hstore hfresh]
    exact ⟨rfl, by simp [alGet_alSet_self]⟩

/-- `isValidAPIKey` rejects exactly the missing, too-short and
placeholder credentials. -/
theorem isValidAPIKey_eq_false (k : String) :
    isValidAPIKey k = false ↔
      k = "" ∨ k.length ≤ 5 ∨ k = "YOUR_API_KEY_HERE" := by
  constructor
  · intro h
    by_contra hc
    push_neg at hc
    obtain ⟨h1, h2, h3⟩ := hc
    simp [isValidAPIKey, h1, h3] at h
    omega
  · intro h
    rcases h with h | h | h
    · simp [isValidAPIKey, h]
    · simp [isValidAPIKey]
      intro h1
      omega
    · simp [isValidAPIKey, h]

/-- C7: a missing, too-short or placeholder credential makes every
search and detail call fail with the configuration error before any
network call; with a valid credential, a whitespace-only search term
(resp. an empty identifier) fails with the validation error, again with
no network call. -/
theorem invalid_inputs_fail_before_network (env : NetEnv) (st : CacheState)
    (term id2 : String) (page : Nat) (sp : Bool) :
    (env.apiKey = "" ∨ env.apiKey.length ≤ 5 ∨
        env.apiKey = "YOUR_API_KEY_HERE" →
      (searchMovies env st term page sp).outcome
          = Except.error ⟨"Error", apiKeyErrorMessage⟩ ∧
      (searchMovies env st term page sp).networkCalls = 0 ∧
      (getMovieDetails env st id2 sp).outcome
          = Except.error ⟨"Error", apiKeyErrorMessage⟩ ∧
      (getMovieDetails env st id2 sp).networkCalls = 0) ∧
    (isValidAPIKey env.apiKey = true → (jsTrim term).length = 0 →
      (searchMovies env st term page sp).outcome
          = Except.error ⟨"Error", "Por favor, insira um termo de busca."⟩ ∧
      (searchMovies env st term page sp).networkCalls = 0) ∧
    (isValidAPIKey env.apiKey = true → (jsTrim id2).length = 0 →
      (getMovieDetails env st id2 sp).outcome
          = Except.error ⟨"Error", "ID IMDb inválido."⟩ ∧
      (getMovieDetails env st id2 sp).networkCalls = 0) := by
  refine ⟨?_, ?_, ?_⟩
  · intro h
    have hk : isValidAPIKey env.apiKey = false :=
      (isValidAPIKey_eq_false env.apiKey).mpr h
    unfold searchMovies getMovieDetails
    simp [hk]
  · intro hk ht
    unfold searchMovies
    simp [hk, ht]
  · intro hk hid
    unfold getMovieDetails
    simp [hk, hid]

/-- Witness for C7: placeholder key, whitespace-only term, empty id. -/
theorem invalid_inputs_fail_before_network_witness :
    (searchMovies { envBase with apiKey := "YOUR_API_KEY_HERE" } emptyCache
        "batman" 1 true).outcome
      = Except.error ⟨"Error", apiKeyErrorMessage⟩ ∧
    (searchMovies envBase emptyCache "   " 1 true).outcome
      = Except.error ⟨"Error", "Por favor, insira um termo de busca."⟩ ∧
    (searchMovies envBase emptyCache "   " 1 true).networkCalls = 0 ∧
    (getMovieDetails envBase emptyCache "" false).outcome
      = Except.error ⟨"Error", "ID IMDb inválido."⟩ := by
  refine ⟨?_, ?_, ?_, ?_⟩
  · exact ((invalid_inputs_fail_before_network
      { envBase with apiKey := "YOUR_API_KEY_HERE" } emptyCache
      "batman" "x" 1 true).1 (Or.inr (Or.inr rfl))).1
  · exact ((invalid_inputs_fail_before_network envBase emptyCache
      "   " "x" 1 true).2.1 rfl rfl).1
  · exact ((invalid_inputs_fail_before_network envBase emptyCache
      "   " "x" 1 true).2.1 rfl rfl).2
  · exact ((invalid_inputs_fail_before_network envBase emptyCache
      "batman" "" 1 false).2.2 rfl rfl).1

/-- C4: with a valid credential and a non-empty term, a fresh cache
entry under the derived key (lowercased term plus page) — in the
in-memory Map, or in persistent storage within the TTL — is returned
as-is and no network call is issued.  In particular a search repeated
within the TTL window is served from the entry the first search wrote,
with no network call. -/
theorem cache_hit_returns_without_network (env : NetEnv) (st : CacheState)
    (term : String) (page : Nat) (sp : Bool) (d : APIData) (ts : Nat)
    (hk : isValidAPIKey env.apiKey = true)
    (ht : (jsTrim term).length ≠ 0) :
    (alGet st.memory (searchCacheKey term page) = some d →
      (searchMovies env st term page sp).outcome = Except.ok d ∧
      (searchMovies env st term page sp).networkCalls = 0) ∧
    (alGet st.memory (searchCacheKey term page) = none →
      alGet st.storage ("omdb_" ++ searchCacheKey term page)
          = some (StoredVal.entry d ts) →
      env.now - ts ≤ CACHE_DURATION →
      (searchMovies env st term page sp).outcome = Except.ok d ∧
      (searchMovies env st term page sp).networkCalls = 0) := by
  constructor
  · intro hmem
    simp [searchMovies, hk, ht,
      getFromCache_memHit st env.now (searchCacheKey term page) d hmem]
  · intro hmem hstore hts
    simp [searchMovies, hk, ht,
      getFromCache_storeHit st env.now ts (searchCacheKey term page) d
        hmem hstore hts]

/-- Witness for C4: the entry written by a successful first search is
served to the identical repeated search with no network call. -/
theorem cache_hit_returns_without_network_witness :
    (searchMovies envBase
        (searchMovies envBase emptyCache "Batman" 1 true).cache
        "Batman" 1 true).outcome = Except.ok dataBatman ∧
    (searchMovies envBase
        (searchMovies envBase emptyCache "Batman" 1 true).cache
        "Batman" 1 true).networkCalls = 0 := by
  have hfirst : (searchMovies envBase emptyCache "Batman" 1 true).cache
      = setCache emptyCache 0 "search_batman_1" dataBatman := rfl
  have h := (cache_hit_returns_without_network envBase
    (searchMovies envBase emptyCache "Batman" 1 true).cache
    "Batman" 1 true dataBatman 0 rfl (by decide)).1 (by rw [hfirst]; rfl)
  exact h

/-- C9 counterexample: when the caller supplies a cancellation token,
the 8-second timer's firing aborts nothing — both the search request
and the detail request complete normally, refuting "aborted ...
regardless of whether the caller supplied a cancellation token". -/
theorem timer_noop_with_caller_token :
    envTimerFires.timerFires = true ∧
    (searchMovies envTimerFires emptyCache "batman" 1 true).timerSetMs
      = some SEARCH_TIMEOUT ∧
    (searchMovies envTimerFires emptyCache "batman" 1 true).outcome
      = Except.ok dataBatman ∧
    envDetailTimerFires.timerFires = true ∧
    (getMovieDetails envDetailTimerFires emptyCache "tt0372784"
        true).timerSetMs = some SEARCH_TIMEOUT ∧
    (getMovieDetails envDetailTimerFires emptyCache "tt0372784"
        true).outcome = Except.ok dataDetail :=
  ⟨rfl, rfl, rfl, rfl, rfl, rfl⟩

/-- C9 (amended): on every cache miss — for `searchMovies` and
`getMovieDetails` alike — a `SEARCH_TIMEOUT` (8000 ms) timer is armed
and exactly one outbound call is made; when the caller supplied no
cancellation token, the timer's firing aborts the call (surfacing as
the cancelled outcome); when a token was supplied, the timer has no
effect at all on the call. -/
theorem timeout_aborts_only_self_controller (env : NetEnv) (st : CacheState)
    (term id2 : String) (page : Nat) (sp : Bool)
    (hk : isValidAPIKey env.apiKey = true)
    (ht : (jsTrim term).length ≠ 0)
    (hmiss : (getFromCache st env.now (searchCacheKey term page)).1 = none)
    (hid : (jsTrim id2).length ≠ 0)
    (hmissd : (getFromCache st env.now (detailCacheKey id2)).1 = none) :
    ((searchMovies env st term page sp).timerSetMs = some SEARCH_TIMEOUT ∧
      (searchMovies env st term page sp).networkCalls = 1 ∧
      (sp = false → env.timerFires = true →
        (searchMovies env st term page sp).outcome
          = Except.error ⟨"Error", "Busca cancelada."⟩) ∧
      searchMovies { env with timerFires := true } st term page true
        = searchMovies { env with timerFires := false } st term page true) ∧
    ((getMovieDetails env st id2 sp).timerSetMs = some SEARCH_TIMEOUT ∧
      (getMovieDetails env st id2 sp).networkCalls = 1 ∧
      (sp = false → env.timerFires = true →
        (getMovieDetails env st id2 sp).outcome
          = Except.error ⟨"Error", "Requisição cancelada."⟩) ∧
      getMovieDetails { env with timerFires := true } st id2 true
        = getMovieDetails { env with timerFires := false } st id2 true) := by
  have hne : ¬(id2 = "") := by
    intro h
    exact hid (by rw [h]; rfl)
  constructor
  · rcases hsplit : getFromCache st env.now (searchCacheKey term page)
      with ⟨o, st1⟩
    have ho : o = none := by
      rw [hsplit] at hmiss
      exact hmiss
    subst ho
    refine ⟨?_, ?_, ?_, ?_⟩
    · simp [searchMovies, hk, ht, hsplit]
    · simp [searchMovies, hk, ht, hsplit]
    · intro hsp htf
      subst hsp
      simp [searchMovies, hk, ht, hsplit, fetchResult, htf]
    · simp [searchMovies, hk, ht, hsplit, fetchResult]
  · rcases hsplit : getFromCache st env.now (detailCacheKey id2)
      with ⟨o, st1⟩
    have ho : o = none := by
      rw [hsplit] at hmissd
      exact hmissd
    subst ho
    refine ⟨?_, ?_, ?_, ?_⟩
    · simp [getMovieDetails, hk, hid, hne, hsplit]
    · simp [getMovieDetails, hk, hid, hne, hsplit]
    · intro hsp htf
      subst hsp
      simp [getMovieDetails, hk, hid, hne, hsplit, fetchResult, htf]
    · simp [getMovieDetails, hk, hid, hne, hsplit, fetchResult]

/-- Witness for the amended C9: with no caller token the timer's firing
surfaces as the cancelled outcome, for a search and for a detail call. -/
theorem timeout_aborts_only_self_controller_witness :
    (searchMovies envTimerFires emptyCache "batman" 1 false).timerSetMs
      = some SEARCH_TIMEOUT ∧
    (searchMovies envTimerFires emptyCache "batman" 1 false).outcome
      = Except.error ⟨"Error", "Busca cancelada."⟩ ∧
    (getMovieDetails envTimerFires emptyCache "tt0372784" false).timerSetMs
      = some SEARCH_TIMEOUT ∧
    (getMovieDetails envTimerFires emptyCache "tt0372784" false).outcome
      = Except.error ⟨"Error", "Requisição cancelada."⟩ := by
  have h := timeout_aborts_only_self_controller envTimerFires emptyCache
    "batman" "tt0372784" 1 false rfl (by decide) rfl (by decide) rfl
  exact ⟨h.1.1, h.1.2.2.1 rfl rfl, h.2.1, h.2.2.2.1 rfl rfl⟩

/-- C10 counterexample: a failing request (HTTP 500) over a cache whose
persistent tier held an expired entry for the derived key does modify
the persistent tier — the lookup deleted the expired entry before the
network call failed. -/
theorem failed_request_modified_storage :
    (searchMovies envHttp500 cacheStoredBatman "batman" 1 false).outcome
      = Except.error ⟨"Error", "HTTP 500"⟩ ∧
    alGet cacheStoredBatman.storage "omdb_search_batman_1"
      = some (StoredVal.entry dataBatman 0) ∧
    alGet (searchMovies envHttp500 cacheStoredBatman "batman" 1
        false).cache.storage "omdb_search_batman_1" = none :=
  ⟨rfl, rfl, rfl⟩

/-- C10 (amended): a failing search or detail request writes nothing to
either cache tier — the in-memory Map is exactly as before, and the
persistent tier is as before except that the lookup may have deleted
the expired entry under the request's own derived key.  The cache write
happens only after response validation succeeds. -/
theorem failure_leaves_no_cache_entry (env : NetEnv) (st : CacheState)
    (term id2 : String) (page : Nat) (sp : Bool) (e e2 : JSError) :
    ((searchMovies env st term page sp).outcome = Except.error e →
      (searchMovies env st term page sp).cache.memory = st.memory ∧
      ((searchMovies env st term page sp).cache.storage = st.storage ∨
        (searchMovies env st term page sp).cache.storage
          = alRemove st.storage ("omdb_" ++ searchCacheKey term page))) ∧
    ((getMovieDetails env st id2 sp).outcome = Except.error e2 →
      (getMovieDetails env st id2 sp).cache.memory = st.memory ∧
      ((getMovieDetails env st id2 sp).cache.storage = st.storage ∨
        (getMovieDetails env st id2 sp).cache.storage
          = alRemove st.storage ("omdb_" ++ detailCacheKey id2))) := by
  constructor
  · intro herr
    by_cases hk : isValidAPIKey env.apiKey
    · by_cases ht : (jsTrim term).length = 0
      · simp [searchMovies, hk, ht]
      · rcases hsplit : getFromCache st env.now (searchCacheKey term page)
          with ⟨o, st1⟩
        cases o with
        | some d =>
          simp [searchMovies, hk, ht, hsplit] at herr
        | none =>
          have hg : (getFromCache st env.now (searchCacheKey term page)).1
              = none := by
            rw [hsplit]
          obtain ⟨hmemeq, hstoreor⟩ := getFromCache_none_state st env.now
            (searchCacheKey term page) hg
          simp only [hsplit] at hmemeq hstoreor
          cases hf : fetchResult sp env with
          | error ef =>
            simp only [searchMovies, hk, ht, hsplit, hf]
            simp [hk, ht, hmemeq, hstoreor]
          | ok trip =>
            obtain ⟨okb, status, body⟩ := trip
            by_cases hok : okb = true
            · cases hv : validateAPIResponse body ReqType.search with
              | error ev =>
                simp only [searchMovies, hk, ht, hsplit, hf, hv]
                simp [hk, ht, hok, hmemeq, hstoreor]
              | ok u =>
                simp [searchMovies, hk, ht, hsplit, hf, hv, hok] at herr
            · simp only [searchMovies, hk, ht, hsplit, hf]
              simp [hk, ht, hok, hmemeq, hstoreor]
    · simp [searchMovies, hk]
  · intro herr
    by_cases hk : isValidAPIKey env.apiKey
    · by_cases hid : (jsTrim id2).length = 0
      · simp [getMovieDetails, hk, hid]
      · have hne : ¬(id2 = "") := by
          intro h
          exact hid (by rw [h]; rfl)
        rcases hsplit : getFromCache st env.now (detailCacheKey id2)
          with ⟨o, st1⟩
        cases o with
        | some d =>
          simp [getMovieDetails, hk, hid, hne, hsplit] at herr
        | none =>
          have hg : (getFromCache st env.now (detailCacheKey id2)).1
              = none := by
            rw [hsplit]
          obtain ⟨hmemeq, hstoreor⟩ := getFromCache_none_state st env.now
            (detailCacheKey id2) hg
          simp only [hsplit] at hmemeq hstoreor
          cases hf : fetchResult sp env with
          | error ef =>
            simp only [getMovieDetails, hk, hid, hne, hsplit, hf]
            simp [hk, hid, hne, hmemeq, hstoreor]
          | ok trip =>
            obtain ⟨okb, status, body⟩ := trip
            by_cases hok : okb = true
            · cases hv : validateAPIResponse body ReqType.detail with
              | error ev =>
                simp only [getMovieDetails, hk, hid, hne, hsplit, hf, hv]
                simp [hk, hid, hne, hok, hmemeq, hstoreor]
              | ok u =>
                simp [getMovieDetails, hk, hid, hne, hsplit, hf, hv, hok]
                  at herr
            · simp only [getMovieDetails, hk, hid, hne, hsplit, hf]
              simp [hk, hid, hne, hok, hmemeq, hstoreor]
    · simp [getMovieDetails, hk]

/-- Witness for the amended C10: a network failure on an empty cache
leaves both tiers empty. -/
theorem failure_leaves_no_cache_entry_witness :
    (searchMovies
        { envBase with
          server := ServerOutcome.networkFailure "TypeError" "Failed to fetch" }
        emptyCache "batman" 1 false).cache.memory = emptyCache.memory ∧
    ((searchMovies
        { envBase with
          server := ServerOutcome.networkFailure "TypeError" "Failed to fetch" }
        emptyCache "batman" 1 false).cache.storage = emptyCache.storage ∨
      (searchMovies
        { envBase with
          server := ServerOutcome.networkFailure "TypeError" "Failed to fetch" }
        emptyCache "batman" 1 false).cache.storage
        = alRemove emptyCache.storage ("omdb_" ++ searchCacheKey "batman" 1)) := by
  exact (failure_leaves_no_cache_entry
    { envBase with
      server := ServerOutcome.networkFailure "TypeError" "Failed to fetch" }
    emptyCache "batman" "x" 1 false
    ⟨"TypeError", "Failed to fetch"⟩ ⟨"TypeError", "Failed to fetch"⟩).1 rfl

/-- Witness for the amended C2, on concrete expired and fresh states. -/
theorem getFromCache_ttl_behavior_witness :
    ((getFromCache cacheStoredBatman (CACHE_DURATION + 1)
        "search_batman_1").1 = none ∧
      alGet (getFromCache cacheStoredBatman (CACHE_DURATION + 1)
        "search_batman_1").2.storage "omdb_search_batman_1" = none) ∧
    (getFromCache cacheStoredBatman 5 "search_batman_1").1
      = some dataBatman := by
  refine ⟨⟨?_, ?_⟩, ?_⟩
  · exact ((getFromCache_ttl_behavior cacheStoredBatman (CACHE_DURATION + 1)
      0 "search_batman_1" dataBatman rfl rfl).1 (by decide)).1
  · exact ((getFromCache_ttl_behavior cacheStoredBatman (CACHE_DURATION + 1)
      0 "search_batman_1" dataBatman rfl rfl).1 (by decide)).2.1
  · exact ((getFromCache_ttl_behavior cacheStoredBatman 5
      0 "search_batman_1" dataBatman rfl rfl).2 (by decide)).1

/-- C1: evaluating the code at a search that is aborted via the caller's
cancellation token.  `searchMovies` rewraps the `AbortError` as a plain
`Error` (name `"Error"`) with message `"Busca cancelada."`, so
`performSearch`'s `error.name !== 'AbortError'` filter passes and the
cancellation is rendered to the user as an error state — contradicting
the claim that cancellation is a distinct outcome never surfaced as a
failure. -/
theorem cancelled_search_rendered_as_failure :
    (searchMovies envAborted emptyCache "batman" 1 true).outcome
      = Except.error ⟨"Error", "Busca cancelada."⟩ ∧
    (performSearch envAborted "batman" appInit emptyCache).render
      = RenderOutcome.showError "Busca cancelada." :=
  ⟨rfl, rfl⟩

/-- C3: evaluating the code at `goToPage(2)`.  With `totalCount = 5`
(page size 10 makes page 2 invalid) `handlePageChange` still issues a
network request; and even with `totalCount = 30` (page 2 valid) the
request carries page 1, because `performSearch` resets
`appState.currentPage` to 1 before calling `searchMovies` — both
contradicting the claim that `goToPage(n)` requests page `n` and only
for valid `n`. -/
theorem handlePageChange_requests_page_one :
    (handlePageChange envBase 2 "batman" appFive emptyCache).networkCalls
      = 1 ∧
    (handlePageChange envBase 2 "batman" appFive emptyCache).searchedPage
      = some 1 ∧
    (handlePageChange envBase 2 "batman" appThirty emptyCache).searchedPage
      = some 1 ∧
    (handlePageChange envBase 2 "batman" appThirty
        emptyCache).app.currentPage = 1 :=
  ⟨rfl, rfl, rfl, rfl⟩

end TopFimes
